import Mathlib

/-!
Shallow embedding of the EcommerceEase server (TypeScript/Express) storage
and route layer, for checking the natural-language specification.

Conventions of the embedding:
* JavaScript `Map<number, T>` tables are modelled as `List T` in insertion
  order; `Map.set` replaces in place when the key is present and appends
  otherwise (`listSet`), `Map.delete` removes the keyed entry (`listDelete`),
  `Array.from(map.values()).find(...)` is `List.find?`.
* `number` ids are `Nat` (they come from counters starting at 1); money,
  stock and quantities are `Int` (exact arithmetic stands in for JS doubles).
* `Date` values are `Nat` timestamps; each handler receives the relevant
  `now` as a parameter, as well as the random id strings produced by
  `randomBytes`/`randomUUID`.
* Fields that are optional in the runtime objects (TS `| null` columns, or
  fields a request body may omit) are `Option _`; the JS `x || d` idiom on a
  possibly-missing value is modelled by an explicit default function that
  also treats the falsy values `0` and the empty string as missing.
* Async storage methods are state-passing functions `State -> a × State`.
-/

namespace ECommerce

/-- JS String.prototype.toLowerCase, modelled characterwise (ASCII case
folding, which covers the usernames and emails at issue). -/
def strLower (s : String) : String :=
  ⟨s.data.map Char.toLower⟩

/-- JS string truthiness for an optional string: `undefined` and `""` are falsy. -/
def optStrTruthy : Option String → Bool
  | none => false
  | some s => s ≠ ""

/-- The JS idiom `q || 1` on an optional numeric field: `undefined` and `0`
fall back to `1`. -/
def intOrOne : Option Int → Int
  | none => 1
  | some v => if v = 0 then 1 else v

/-- The JS idiom `s || d` on an optional string field: `undefined` and `""`
fall back to the default. -/
def strOrDefault (s : Option String) (d : String) : String :=
  match s with
  | none => d
  | some v => if v = "" then d else v

/-- `Map.set id v` on a table in insertion order: replace in place when the
key is present, append otherwise. -/
def listSet {α : Type} (getId : α → Nat) (id : Nat) (v : α) (l : List α) : List α :=
  if l.any (fun x => getId x = id) then
    l.map (fun x => if getId x = id then v else x)
  else
    l ++ [v]

/-- `Map.delete id` on a table: `true` iff the key was present; the entry is
removed. -/
def listDelete {α : Type} (getId : α → Nat) (id : Nat) (l : List α) : Bool × List α :=
  if l.any (fun x => getId x = id) then
    (true, l.filter (fun x => getId x ≠ id))
  else
    (false, l)

/-! ## Entity records (shared/schema.ts, runtime shape as stored by MemStorage) -/

structure User where
  id : Nat
  username : String
  name : Option String
  email : Option String
  password : String
  phone_number : Option String
  address : Option String
  registration_date : Nat
  role : String
  last_updated : Option Nat
  deriving Repr, DecidableEq

structure Seller where
  id : Nat
  user_id : Nat
  seller_id : String
  shop_name : String
  deriving Repr, DecidableEq

structure Product where
  id : Nat
  product_id : String
  seller_id : Nat
  name : String
  description : String
  price : Int
  stock : Int
  image_url : Option String
  added_date : Nat
  last_updated : Option Nat
  status : String
  deriving Repr, DecidableEq

structure Category where
  id : Nat
  category_id : String
  category_name : String
  deriving Repr, DecidableEq

structure ProductCategory where
  id : Nat
  product_id : Nat
  category_id : Nat
  deriving Repr, DecidableEq

structure Cart where
  id : Nat
  cart_id : String
  user_id : Nat
  created_at : Nat
  deriving Repr, DecidableEq

structure CartItem where
  id : Nat
  cart_id : Nat
  product_id : Nat
  quantity : Int
  added_date : Nat
  deriving Repr, DecidableEq

structure Order where
  id : Nat
  order_id : String
  customer_id : Nat
  total_price : Int
  order_date : Nat
  status : Option String
  deriving Repr, DecidableEq

structure OrderItem where
  id : Nat
  order_id : Nat
  product_id : Nat
  quantity : Int
  price : Int
  deriving Repr, DecidableEq

structure Payment where
  id : Nat
  payment_id : String
  order_id : Nat
  amount : Int
  payment_date : Nat
  method : String
  status : String
  deriving Repr, DecidableEq

structure Shipment where
  id : Nat
  shipment_id : String
  order_id : Nat
  shipment_date : Nat
  estimated_delivery : Option Nat
  tracking_number : Option String
  carrier : Option String
  status : String
  deriving Repr, DecidableEq

structure Review where
  id : Nat
  review_id : String
  product_id : Nat
  customer_id : Nat
  rating : Int
  review_text : Option String
  review_date : Nat
  deriving Repr, DecidableEq

/-! ## Insert payloads (the zod insert schemas of shared/schema.ts) -/

structure InsertUser where
  username : String
  name : Option String
  email : Option String
  password : String
  phone_number : Option String
  address : Option String
  role : String
  deriving Repr, DecidableEq

structure InsertSeller where
  user_id : Nat
  seller_id : String
  shop_name : String
  deriving Repr, DecidableEq

structure InsertProductCategory where
  product_id : Nat
  category_id : Nat
  deriving Repr, DecidableEq

structure InsertCartItem where
  cart_id : Nat
  product_id : Nat
  quantity : Option Int
  deriving Repr, DecidableEq

structure InsertOrder where
  order_id : String
  customer_id : Nat
  total_price : Int
  status : Option String
  deriving Repr, DecidableEq

structure InsertOrderItem where
  order_id : Nat
  product_id : Nat
  quantity : Int
  price : Int
  deriving Repr, DecidableEq

structure InsertPayment where
  payment_id : String
  order_id : Nat
  amount : Int
  method : String
  status : String
  deriving Repr, DecidableEq

structure InsertShipment where
  shipment_id : String
  order_id : Nat
  estimated_delivery : Option Nat
  tracking_number : Option String
  carrier : Option String
  status : String
  deriving Repr, DecidableEq

/-- `Partial<CartItem>` patch as used by `updateCartItem` (only the mutable
columns are ever patched by the server code). -/
structure CartItemPatch where
  cart_id : Option Nat := none
  product_id : Option Nat := none
  quantity : Option Int := none
  deriving Repr, DecidableEq

/-- `Partial<Product>` patch as used by `updateProduct` (the order handler
patches only `stock`). -/
structure ProductPatch where
  name : Option String := none
  description : Option String := none
  price : Option Int := none
  stock : Option Int := none
  image_url : Option (Option String) := none
  status : Option String := none
  deriving Repr, DecidableEq

/-! ## MemStorage state (server/storage.ts, class MemStorage) -/

structure State where
  users : List User
  sellers : List Seller
  products : List Product
  categories : List Category
  productCategories : List ProductCategory
  carts : List Cart
  cartItems : List CartItem
  orders : List Order
  orderItems : List OrderItem
  payments : List Payment
  shipments : List Shipment
  reviews : List Review
  userIdCounter : Nat
  sellerIdCounter : Nat
  productIdCounter : Nat
  categoryIdCounter : Nat
  productCategoryIdCounter : Nat
  cartIdCounter : Nat
  cartItemIdCounter : Nat
  orderIdCounter : Nat
  orderItemIdCounter : Nat
  paymentIdCounter : Nat
  shipmentIdCounter : Nat
  reviewIdCounter : Nat
  deriving Repr, DecidableEq

/-- The freshly constructed MemStorage (sample categories not yet seeded). -/
def State.empty : State :=
  ⟨[], [], [], [], [], [], [], [], [], [], [], [],
   1, 1, 1, 1, 1, 1, 1, 1, 1, 1, 1, 1⟩

/-! ## MemStorage operations -/

/-- MemStorage.getUser. -/
def getUser (st : State) (id : Nat) : Option User :=
  st.users.find? (fun u => u.id = id)

/-- MemStorage.getUserByUsername: case-insensitive match on username.
`toLowerCase` is modelled by `String.toLower`. -/
def getUserByUsername (st : State) (username : String) : Option User :=
  st.users.find? (fun u => strLower u.username = strLower username)

/-- MemStorage.getUserByEmail: case-insensitive match on email.  A stored
user with no email never matches (the source assumes `email` is present,
per its column type). -/
def getUserByEmail (st : State) (email : String) : Option User :=
  st.users.find? (fun u =>
    match u.email with
    | some em => strLower em = strLower email
    | none => false)

/-- MemStorage.createUser. -/
def createUser (st : State) (iu : InsertUser) (now : Nat) : User × State :=
  let id := st.userIdCounter
  let user : User :=
    { id := id, username := iu.username, name := iu.name, email := iu.email,
      password := iu.password, phone_number := iu.phone_number,
      address := iu.address, registration_date := now, role := iu.role,
      last_updated := some now }
  (user, { st with users := listSet User.id id user st.users,
                   userIdCounter := id + 1 })

/-- MemStorage.createSeller. -/
def createSeller (st : State) (is : InsertSeller) : Seller × State :=
  let id := st.sellerIdCounter
  let seller : Seller :=
    { id := id, user_id := is.user_id, seller_id := is.seller_id,
      shop_name := is.shop_name }
  (seller, { st with sellers := listSet Seller.id id seller st.sellers,
                     sellerIdCounter := id + 1 })

/-- MemStorage.getProduct. -/
def getProduct (st : State) (id : Nat) : Option Product :=
  st.products.find? (fun p => p.id = id)

/-- Merge of `{ ...product, ...productData, last_updated: new Date() }`. -/
def applyProductPatch (p : Product) (patch : ProductPatch) (now : Nat) : Product :=
  { p with
    name := patch.name.getD p.name,
    description := patch.description.getD p.description,
    price := patch.price.getD p.price,
    stock := patch.stock.getD p.stock,
    image_url := patch.image_url.getD p.image_url,
    status := patch.status.getD p.status,
    last_updated := some now }

/-- MemStorage.updateProduct. -/
def updateProduct (st : State) (id : Nat) (patch : ProductPatch) (now : Nat) :
    Option Product × State :=
  match getProduct st id with
  | none => (none, st)
  | some p =>
    let p' := applyProductPatch p patch now
    (some p', { st with products := listSet Product.id id p' st.products })

/-- The filter argument of listProducts. -/
structure ProductFilter where
  sellerId : Option Nat := none
  categoryId : Option Nat := none
  status : Option String := none
  deriving Repr, DecidableEq

/-- MemStorage.listProducts: successive narrowing by each given filter
field; the category filter goes through the productCategories table. -/
def listProducts (st : State) (filter : Option ProductFilter) : List Product :=
  let products := st.products
  match filter with
  | none => products
  | some f =>
    let products :=
      match f.sellerId with
      | none => products
      | some sid => products.filter (fun p => p.seller_id = sid)
    let products :=
      match f.status with
      | none => products
      | some s => products.filter (fun p => p.status = s)
    match f.categoryId with
    | none => products
    | some cid =>
      let productIds :=
        (st.productCategories.filter (fun pc => pc.category_id = cid)).map
          (fun pc => pc.product_id)
      products.filter (fun p => productIds.contains p.id)

/-- The duplicate check of assignProductToCategory: same product and same
category. -/
def pcPairEq (ipc : InsertProductCategory) (pc : ProductCategory) : Bool :=
  pc.product_id = ipc.product_id ∧ pc.category_id = ipc.category_id

/-- MemStorage.assignProductToCategory: returns the existing link when the
(product, category) pair is already present, otherwise inserts a new one. -/
def assignProductToCategory (st : State) (ipc : InsertProductCategory) :
    ProductCategory × State :=
  match st.productCategories.find? (pcPairEq ipc) with
  | some existing => (existing, st)
  | none =>
    let id := st.productCategoryIdCounter
    let pc : ProductCategory :=
      { id := id, product_id := ipc.product_id, category_id := ipc.category_id }
    (pc, { st with
            productCategories := listSet ProductCategory.id id pc st.productCategories,
            productCategoryIdCounter := id + 1 })

/-- MemStorage.getCartByUserId. -/
def getCartByUserId (st : State) (userId : Nat) : Option Cart :=
  st.carts.find? (fun c => c.user_id = userId)

/-- MemStorage.getCartItem. -/
def getCartItem (st : State) (id : Nat) : Option CartItem :=
  st.cartItems.find? (fun it => it.id = id)

/-- MemStorage.getCartItems. -/
def getCartItems (st : State) (cartId : Nat) : List CartItem :=
  st.cartItems.filter (fun it => it.cart_id = cartId)

/-- MemStorage.updateCartItem: merge the patch over the stored item. -/
def updateCartItem (st : State) (id : Nat) (patch : CartItemPatch) :
    Option CartItem × State :=
  match getCartItem st id with
  | none => (none, st)
  | some it =>
    let it' : CartItem :=
      { it with
        cart_id := patch.cart_id.getD it.cart_id,
        product_id := patch.product_id.getD it.product_id,
        quantity := patch.quantity.getD it.quantity }
    (some it', { st with cartItems := listSet CartItem.id id it' st.cartItems })

/-- The duplicate check of addCartItem: same cart and same product. -/
def ciPairEq (ici : InsertCartItem) (it : CartItem) : Bool :=
  it.cart_id = ici.cart_id ∧ it.product_id = ici.product_id

/-- MemStorage.addCartItem: if the cart already has an item for the product,
bump its quantity by `quantity || 1`; otherwise insert a new item with
quantity `quantity || 1`. -/
def addCartItem (st : State) (ici : InsertCartItem) (now : Nat) :
    Option CartItem × State :=
  match st.cartItems.find? (ciPairEq ici) with
  | some existingItem =>
    updateCartItem st existingItem.id
      { quantity := some (existingItem.quantity + intOrOne ici.quantity) }
  | none =>
    let id := st.cartItemIdCounter
    let cartItem : CartItem :=
      { id := id, cart_id := ici.cart_id, product_id := ici.product_id,
        quantity := intOrOne ici.quantity, added_date := now }
    (some cartItem,
     { st with cartItems := listSet CartItem.id id cartItem st.cartItems,
               cartItemIdCounter := id + 1 })

/-- MemStorage.removeCartItem. -/
def removeCartItem (st : State) (id : Nat) : Bool × State :=
  let del := listDelete CartItem.id id st.cartItems
  (del.1, { st with cartItems := del.2 })

/-- MemStorage.createOrder. -/
def createOrder (st : State) (io : InsertOrder) (now : Nat) : Order × State :=
  let id := st.orderIdCounter
  let order : Order :=
    { id := id, order_id := io.order_id, customer_id := io.customer_id,
      total_price := io.total_price, order_date := now, status := io.status }
  (order, { st with orders := listSet Order.id id order st.orders,
                    orderIdCounter := id + 1 })

/-- MemStorage.addOrderItem. -/
def addOrderItem (st : State) (ioi : InsertOrderItem) : OrderItem × State :=
  let id := st.orderItemIdCounter
  let orderItem : OrderItem :=
    { id := id, order_id := ioi.order_id, product_id := ioi.product_id,
      quantity := ioi.quantity, price := ioi.price }
  (orderItem, { st with orderItems := listSet OrderItem.id id orderItem st.orderItems,
                        orderItemIdCounter := id + 1 })

/-- MemStorage.createPayment. -/
def createPayment (st : State) (ip : InsertPayment) (now : Nat) : Payment × State :=
  let id := st.paymentIdCounter
  let payment : Payment :=
    { id := id, payment_id := ip.payment_id, order_id := ip.order_id,
      amount := ip.amount, payment_date := now, method := ip.method,
      status := ip.status }
  (payment, { st with payments := listSet Payment.id id payment st.payments,
                      paymentIdCounter := id + 1 })

/-- MemStorage.createShipment. -/
def createShipment (st : State) (ish : InsertShipment) (now : Nat) : Shipment × State :=
  let id := st.shipmentIdCounter
  let shipment : Shipment :=
    { id := id, shipment_id := ish.shipment_id, order_id := ish.order_id,
      shipment_date := now, estimated_delivery := ish.estimated_delivery,
      tracking_number := ish.tracking_number, carrier := ish.carrier,
      status := ish.status }
  (shipment, { st with shipments := listSet Shipment.id id shipment st.shipments,
                       shipmentIdCounter := id + 1 })

/-! ## Database selection (server/config.ts and the tail of server/storage.ts) -/

/-- The environment variables that drive backend selection. -/
structure Env where
  dbType : Option String
  databaseUrl : Option String
  mysqlDatabase : Option String
  deriving Repr, DecidableEq

/-- POSTGRES_CONFIG.isAvailable: DATABASE_URL is defined (even if empty). -/
def postgresConfigAvailable (env : Env) : Bool :=
  env.databaseUrl.isSome

/-- MYSQL_CONFIG.isAvailable: MYSQL_DATABASE is defined (even if empty). -/
def mysqlConfigAvailable (env : Env) : Bool :=
  env.mysqlDatabase.isSome

/-- config.ts getDatabaseType: an explicit DB_TYPE other than auto wins;
otherwise auto-detect prefers Postgres, then MySQL, then in-memory. -/
def getDatabaseType (env : Env) : String :=
  if optStrTruthy env.dbType ∧ env.dbType ≠ some "auto" then
    env.dbType.getD ""
  else if env.dbType = some "auto" ∨ ¬ optStrTruthy env.dbType then
    if postgresConfigAvailable env then "postgres"
    else if mysqlConfigAvailable env then "mysql"
    else "memory"
  else
    "memory"

/-- Which storage implementation ends up exported. -/
inductive StorageKind where
  | postgres
  | mysql
  | memory
  deriving Repr, DecidableEq

/-- storage.ts initPostgresStorage: new DbStorage(), falling back to
MemStorage when the constructor throws. -/
def initPostgresStorage (pgCtorThrows : Bool) : StorageKind :=
  if pgCtorThrows then .memory else .postgres

/-- storage.ts initMySqlStorage: new MySqlStorage() plus an availability
check; on a thrown error or a failed check, fall back to Postgres when
POSTGRES_CONFIG.isAvailable and to MemStorage otherwise. -/
def initMySqlStorage (mysqlInitThrows mysqlCheckOk pgConfigured pgCtorThrows : Bool) :
    StorageKind :=
  if mysqlInitThrows then
    if pgConfigured then initPostgresStorage pgCtorThrows else .memory
  else if ¬ mysqlCheckOk then
    if pgConfigured then initPostgresStorage pgCtorThrows else .memory
  else
    .mysql

/-- The module-level try/catch of storage.ts that fixes `storage` at
startup: the chosen constructor throwing lands on MemStorage. -/
def selectStorage (dbType : String) (ctorThrows : Bool) : StorageKind :=
  if ctorThrows then .memory
  else if dbType = "postgres" then .postgres
  else if dbType = "mysql" then .mysql
  else .memory

/-- The exported `storage` as a function of the environment and of whether
the chosen constructor throws. -/
def storageFor (env : Env) (ctorThrows : Bool) : StorageKind :=
  selectStorage (getDatabaseType env) ctorThrows

/-! ## Authentication (server/auth.ts) -/

/-- auth.ts hashPassword: encryption removed, the password is stored as is. -/
def hashPassword (password : String) : String :=
  password

/-- auth.ts comparePasswords: direct string comparison. -/
def comparePasswords (supplied stored : String) : Bool :=
  supplied = stored

/-- The request body of POST /api/register, with the fields the handler
reads (loginUserSchema validates only username and password). -/
structure RegisterBody where
  username : String
  password : String
  name : Option String := none
  email : Option String := none
  phone_number : Option String := none
  address : Option String := none
  role : Option String := none
  shop_name : Option String := none
  deriving Repr, DecidableEq

/-- loginUserSchema: username is a string of length 3..50, password a string
of length at least 6. -/
def loginUserValid (body : RegisterBody) : Prop :=
  3 ≤ body.username.length ∧ body.username.length ≤ 50 ∧ 6 ≤ body.password.length

instance (body : RegisterBody) : Decidable (loginUserValid body) := by
  unfold loginUserValid; infer_instance

/-- Outcome of POST /api/register (created carries the 201 payload user). -/
inductive RegisterResult where
  | created (u : User)
  | validationFailed
  | usernameExists
  | emailExists
  deriving Repr, DecidableEq

/-- The tail of POST /api/register once the duplicate checks have passed:
create the user with the hashed password and the role defaulted to
customer, create a seller profile for sellers with a shop name, and answer
201 with the user. -/
def registerCreate (st : State) (body : RegisterBody) (now : Nat) (sellerIdStr : String) :
    RegisterResult × State :=
  let hashedPassword := hashPassword body.password
  let userToCreate : InsertUser :=
    { username := body.username, name := body.name, email := body.email,
      password := hashedPassword, phone_number := body.phone_number,
      address := body.address, role := strOrDefault body.role "customer" }
  let cu := createUser st userToCreate now
  let user := cu.1
  let st1 := cu.2
  let st2 :=
    if user.role = "seller" ∧ optStrTruthy body.shop_name then
      (createSeller st1
        { user_id := user.id, seller_id := sellerIdStr,
          shop_name := body.shop_name.getD "" }).2
    else st1
  (.created user, st2)

/-- POST /api/register over MemStorage: validate, reject a duplicate
username or (when an email is supplied) a duplicate email, then create the
user. -/
def register (st : State) (body : RegisterBody) (now : Nat) (sellerIdStr : String) :
    RegisterResult × State :=
  if ¬ loginUserValid body then (.validationFailed, st)
  else
    match getUserByUsername st body.username with
    | some _ => (.usernameExists, st)
    | none =>
      let emailTaken :=
        match body.email with
        | some em => if em ≠ "" then (getUserByEmail st em).isSome else false
        | none => false
      if emailTaken then (.emailExists, st)
      else registerCreate st body now sellerIdStr

/-- The storage-interface path of the passport LocalStrategy: look the user
up by username and authenticate exactly when comparePasswords succeeds. -/
def localStrategyAuth (st : State) (username password : String) : Option User :=
  match getUserByUsername st username with
  | none => none
  | some user =>
    if comparePasswords password user.password then some user else none

/-- The `string | string[]` roles argument of hasRole. -/
inductive RoleArg where
  | one (role : String)
  | many (roles : List String)
  deriving Repr, DecidableEq

/-- `Array.isArray(roles) ? roles : [roles]`. -/
def allowedRolesOf : RoleArg → List String
  | .one role => [role]
  | .many roles => roles

/-- auth.ts hasRole middleware around an arbitrary route handler: 401 when
unauthenticated, 403 when the user's role is not allowed, otherwise run the
handler.  The result is the HTTP status and the storage state. -/
def hasRole (roles : RoleArg) (auth : Option User) (handler : State → Nat × State)
    (st : State) : Nat × State :=
  match auth with
  | none => (401, st)
  | some user =>
    if (allowedRolesOf roles).contains user.role then handler st
    else (403, st)

/-! ## POST /api/orders (routes file, lines 520-619)

The handler is embedded with an explicit fault schedule to express its lack
of atomicity: `fault = some k` makes the k-th storage mutation performed
after createOrder (order items, stock updates, payment, shipment, cart
removals, counted in execution order from 0) throw, which the handler's
catch passes to `next(error)`; `fault = none` is the fault-free run. -/

/-- The validated/spread parts of the checkout request body: the four order
columns a body can override through `{ ...req.body }` (other keys are
stripped by the zod schema) plus payment_method, which is read directly. -/
structure OrderBody where
  order_id : Option String := none
  customer_id : Option Nat := none
  total_price : Option Int := none
  status : Option String := none
  payment_method : Option String := none
  deriving Repr, DecidableEq

/-- Outcome of POST /api/orders: 201 with order, payment and shipment;
400 with a message; or an error passed to next(error). -/
inductive OrderResp where
  | created (o : Order) (p : Payment) (s : Shipment)
  | badRequest (msg : String)
  | errorPassed
  deriving Repr, DecidableEq

/-- Execution context in the fallible region: state plus the count of
storage mutations performed since createOrder. -/
structure Exec where
  st : State
  calls : Nat
  deriving Repr, DecidableEq

/-- Run one storage mutation, or throw (state unchanged) when the fault
schedule says this call fails. -/
def fstepV {α : Type} (fault : Option Nat) (op : State → α × State) (e : Exec) :
    Except Exec (α × Exec) :=
  if fault = some e.calls then .error e
  else
    let r := op e.st
    .ok (r.1, ⟨r.2, e.calls + 1⟩)

/-- First loop of the handler: verify each cart item's product exists with
enough stock while accumulating the total price. -/
def checkItems (st : State) (total : Int) : List CartItem → Except String Int
  | [] => .ok total
  | item :: rest =>
    match getProduct st item.product_id with
    | none => .error ("Product with ID " ++ toString item.product_id ++ " not found")
    | some product =>
      if product.stock < item.quantity then
        .error ("Not enough stock for " ++ product.name)
      else
        checkItems st (total + product.price * item.quantity) rest

/-- Second loop of the handler: for each cart item whose product (re-read
from the current state) exists, add an order item at the product's current
price and decrement the product's stock. -/
def processItems (fault : Option Nat) (orderId : Nat) (now : Nat) :
    List CartItem → Exec → Except Exec Exec
  | [], e => .ok e
  | item :: rest, e =>
    match getProduct e.st item.product_id with
    | none => processItems fault orderId now rest e
    | some product =>
      match fstepV fault (fun s => addOrderItem s
          { order_id := orderId, product_id := item.product_id,
            quantity := item.quantity, price := product.price }) e with
      | .error e' => .error e'
      | .ok (_, e1) =>
        match fstepV fault (fun s => updateProduct s product.id
            { stock := some (product.stock - item.quantity) } now) e1 with
        | .error e' => .error e'
        | .ok (_, e2) => processItems fault orderId now rest e2

/-- Final loop of the handler: remove every fetched cart item. -/
def clearItems (fault : Option Nat) : List CartItem → Exec → Except Exec Exec
  | [], e => .ok e
  | item :: rest, e =>
    match fstepV fault (fun s => removeCartItem s item.id) e with
    | .error e' => .error e'
    | .ok (_, e1) => clearItems fault rest e1

/-- Payment, shipment and cart-clearing phase of the order handler, after
the order items have been processed. -/
def orderFinalize (fault : Option Nat) (order : Order) (totalPrice : Int)
    (body : OrderBody) (payIdStr shipIdStr : String) (now : Nat)
    (cartItems : List CartItem) (e1 : Exec) : OrderResp × State :=
  match fstepV fault (fun s => createPayment s
      { payment_id := payIdStr, order_id := order.id, amount := totalPrice,
        method := strOrDefault body.payment_method "credit_card",
        status := "completed" } now) e1 with
  | .error e => (.errorPassed, e.st)
  | .ok (payment, e2) =>
    match fstepV fault (fun s => createShipment s
        { shipment_id := shipIdStr, order_id := order.id,
          estimated_delivery := some (now + 7 * 24 * 60 * 60 * 1000),
          tracking_number := none, carrier := none,
          status := "processing" } now) e2 with
    | .error e => (.errorPassed, e.st)
    | .ok (shipment, e3) =>
      match clearItems fault cartItems e3 with
      | .error e => (.errorPassed, e.st)
      | .ok e4 => (.created order payment shipment, e4.st)

/-- Order-creation phase of the handler, once the cart has been fetched and
stock verified.  `orderData` spreads `req.body` after the computed fields,
so body keys override order_id, customer_id, total_price and status; zod
validation always succeeds on this well-typed data. -/
def placeOrderChecked (fault : Option Nat) (st : State) (user : User)
    (cartItems : List CartItem) (totalPrice : Int) (body : OrderBody)
    (orderIdStr payIdStr shipIdStr : String) (now : Nat) : OrderResp × State :=
  let orderData : InsertOrder :=
    { order_id := body.order_id.getD orderIdStr,
      customer_id := body.customer_id.getD user.id,
      total_price := body.total_price.getD totalPrice,
      status := body.status }
  let co := createOrder st orderData now
  match processItems fault co.1.id now cartItems ⟨co.2, 0⟩ with
  | .error e => (.errorPassed, e.st)
  | .ok e1 =>
    orderFinalize fault co.1 totalPrice body payIdStr shipIdStr now cartItems e1

/-- POST /api/orders for an authenticated user.  `orderIdStr`, `payIdStr`
and `shipIdStr` are the randomBytes-generated public ids and `now` the
request time. -/
def placeOrder (fault : Option Nat) (st : State) (user : User) (body : OrderBody)
    (orderIdStr payIdStr shipIdStr : String) (now : Nat) : OrderResp × State :=
  match getCartByUserId st user.id with
  | none => (.badRequest "Cart is empty", st)
  | some cart =>
    let cartItems := getCartItems st cart.id
    if cartItems.length = 0 then (.badRequest "Cart is empty", st)
    else
      match checkItems st 0 cartItems with
      | .error msg => (.badRequest msg, st)
      | .ok totalPrice =>
        placeOrderChecked fault st user cartItems totalPrice body
          orderIdStr payIdStr shipIdStr now

/-! ## Derived predicates and spec-side quantities -/

/-- Each cart holds at most one cart item per product: no two stored cart
items share the same (cart, product) pair. -/
def cartPairInv (st : State) : Prop :=
  st.cartItems.Pairwise (fun a b => ¬ (a.cart_id = b.cart_id ∧ a.product_id = b.product_id))

/-- Basic well-formedness of the cart item table, true of every state the
MemStorage constructor and its operations can produce: ids are distinct and
below the id counter. -/
def cartIdsWF (st : State) : Prop :=
  st.cartItems.Pairwise (fun a b => a.id ≠ b.id) ∧
  ∀ it ∈ st.cartItems, it.id < st.cartItemIdCounter

instance (st : State) : Decidable (cartPairInv st) := by
  unfold cartPairInv
  infer_instance

instance (st : State) : Decidable (cartIdsWF st) := by
  unfold cartIdsWF
  infer_instance

/-- Well-formedness of the order item table: ids are below the id counter. -/
def orderItemsWF (st : State) : Prop :=
  ∀ oi ∈ st.orderItems, oi.id < st.orderItemIdCounter

/-- The sum over cart items of product price times quantity (missing
products contribute nothing; the claims assume they exist). -/
def orderTotal (st : State) (items : List CartItem) : Int :=
  (items.map (fun it =>
    match getProduct st it.product_id with
    | some p => p.price * it.quantity
    | none => 0)).sum

/-- The observable content of an order item: order, product, quantity,
price at time of purchase. -/
def orderItemKey (oi : OrderItem) : Nat × Nat × Int × Int :=
  (oi.order_id, oi.product_id, oi.quantity, oi.price)

/-- Total quantity a list of cart items holds for a given product (a cart
may hold several items for the same product, e.g. after a PUT on a cart
item that rewrites its product_id; the checkout loop then decrements the
product once per item, re-reading the stock each time). -/
def cartQty (items : List CartItem) (j : Nat) : Int :=
  ((items.filter (fun it => it.product_id = j)).map CartItem.quantity).sum

/-- Everything except the products and order-items tables (and the
order-item id counter) agrees between the two states: the frame of the
order-items loop of the checkout handler. -/
def procFrame (s s' : State) : Prop :=
  s'.users = s.users ∧ s'.sellers = s.sellers ∧ s'.categories = s.categories ∧
  s'.productCategories = s.productCategories ∧ s'.carts = s.carts ∧
  s'.cartItems = s.cartItems ∧ s'.orders = s.orders ∧
  s'.payments = s.payments ∧ s'.shipments = s.shipments ∧
  s'.reviews = s.reviews ∧
  s'.userIdCounter = s.userIdCounter ∧ s'.sellerIdCounter = s.sellerIdCounter ∧
  s'.productIdCounter = s.productIdCounter ∧
  s'.categoryIdCounter = s.categoryIdCounter ∧
  s'.productCategoryIdCounter = s.productCategoryIdCounter ∧
  s'.cartIdCounter = s.cartIdCounter ∧ s'.cartItemIdCounter = s.cartItemIdCounter ∧
  s'.orderIdCounter = s.orderIdCounter ∧
  s'.paymentIdCounter = s.paymentIdCounter ∧
  s'.shipmentIdCounter = s.shipmentIdCounter ∧
  s'.reviewIdCounter = s.reviewIdCounter

/-- Everything except the cart-items table agrees between the two states:
the frame of the cart-clearing loop of the checkout handler. -/
def clearFrame (s s' : State) : Prop :=
  s'.users = s.users ∧ s'.sellers = s.sellers ∧ s'.products = s.products ∧
  s'.categories = s.categories ∧ s'.productCategories = s.productCategories ∧
  s'.carts = s.carts ∧ s'.orders = s.orders ∧ s'.orderItems = s.orderItems ∧
  s'.payments = s.payments ∧ s'.shipments = s.shipments ∧
  s'.reviews = s.reviews ∧
  s'.userIdCounter = s.userIdCounter ∧ s'.sellerIdCounter = s.sellerIdCounter ∧
  s'.productIdCounter = s.productIdCounter ∧
  s'.categoryIdCounter = s.categoryIdCounter ∧
  s'.productCategoryIdCounter = s.productCategoryIdCounter ∧
  s'.cartIdCounter = s.cartIdCounter ∧ s'.cartItemIdCounter = s.cartItemIdCounter ∧
  s'.orderIdCounter = s.orderIdCounter ∧
  s'.orderItemIdCounter = s.orderItemIdCounter ∧
  s'.paymentIdCounter = s.paymentIdCounter ∧
  s'.shipmentIdCounter = s.shipmentIdCounter ∧
  s'.reviewIdCounter = s.reviewIdCounter

/-! ## Concrete fixtures for witnesses and counterexamples -/

/-- A registration body for the C1 witness. -/
def regBody0 : RegisterBody :=
  { username := "alice", password := "secret1" }

/-- The user POST /api/register creates from `regBody0` on a fresh store. -/
def regUser0 : User :=
  { id := 1, username := "alice", name := none, email := none,
    password := "secret1", phone_number := none, address := none,
    registration_date := 0, role := "customer", last_updated := some 0 }

/-- The state after registering `regBody0` on a fresh store. -/
def regState0 : State :=
  (register State.empty regBody0 0 "SELLER-1").2

/-- An existing user whose username is "Bob", for the C10 witness. -/
def bobUser : User :=
  { id := 1, username := "Bob", name := none, email := some "bob@x.io",
    password := "hunter22", phone_number := none, address := none,
    registration_date := 0, role := "customer", last_updated := none }

/-- A store already holding `bobUser`. -/
def bobState : State :=
  { State.empty with users := [bobUser], userIdCounter := 2 }

/-- A checkout scenario: one customer, one product (price 10, stock 5), a
cart holding 2 units of it. -/
def c3User : User :=
  { id := 7, username := "carol", name := none, email := none,
    password := "pw12345", phone_number := none, address := none,
    registration_date := 0, role := "customer", last_updated := none }

def c3Product : Product :=
  { id := 1, product_id := "P-1", seller_id := 1, name := "Widget",
    description := "a widget", price := 10, stock := 5, image_url := none,
    added_date := 0, last_updated := none, status := "active" }

def c3Cart : Cart :=
  { id := 1, cart_id := "C-1", user_id := 7, created_at := 0 }

def c3Item : CartItem :=
  { id := 1, cart_id := 1, product_id := 1, quantity := 2, added_date := 0 }

def c3St : State :=
  { State.empty with
    users := [c3User], userIdCounter := 8,
    products := [c3Product], productIdCounter := 2,
    carts := [c3Cart], cartIdCounter := 2,
    cartItems := [c3Item], cartItemIdCounter := 2 }

/-- The checkout run in which the third storage mutation after createOrder
(createPayment) throws. -/
def c3Run : OrderResp × State :=
  placeOrder (some 2) c3St c3User {} "ORD-1" "PAY-1" "SHIP-1" 100

/-- The fault-free checkout run on the same scenario (for the C2 witness). -/
def c2Run : OrderResp × State :=
  placeOrder none c3St c3User {} "ORD-1" "PAY-1" "SHIP-1" 100

/-- The fault-free checkout run whose request body smuggles in a
total_price field, which `{ ...req.body }` lets override the computed sum. -/
def c2CexRun : OrderResp × State :=
  placeOrder none c3St c3User { total_price := some 999 } "ORD-1" "PAY-1" "SHIP-1" 100

/-- A cart item state for the C8 counterexample: one item of quantity 2. -/
def c8St : State :=
  { State.empty with cartItems := [c3Item], cartItemIdCounter := 2 }

/-! ## Helper lemmas about the Map model -/

section ListLemmas

variable {α : Type}

lemma listSet_of_forall_ne (getId : α → Nat) (id : Nat) (v : α) (l : List α)
    (h : ∀ x ∈ l, getId x ≠ id) : listSet getId id v l = l ++ [v] := by
  unfold listSet
  rw [if_neg]
  intro hc
  rw [List.any_eq_true] at hc
  obtain ⟨x, hx, hgx⟩ := hc
  exact h x hx (by simpa using hgx)

lemma mem_listSet_self (getId : α → Nat) (id : Nat) (v : α) (l : List α)
    (_hvid : getId v = id) : v ∈ listSet getId id v l := by
  unfold listSet
  split
  · next h =>
    rw [List.any_eq_true] at h
    obtain ⟨x, hx, hgx⟩ := h
    exact List.mem_map.mpr ⟨x, hx, by simp [(by simpa using hgx : getId x = id)]⟩
  · simp

lemma length_listSet_of_mem (getId : α → Nat) (id : Nat) (v : α) (l : List α)
    (hex : ∃ x ∈ l, getId x = id) : (listSet getId id v l).length = l.length := by
  unfold listSet
  rw [if_pos]
  · exact l.length_map _
  · rw [List.any_eq_true]
    obtain ⟨x, hx, hgx⟩ := hex
    exact ⟨x, hx, by simpa using hgx⟩

lemma find?_map_ite_getId (getId : α → Nat) (id : Nat) (v : α) (l : List α)
    (hvid : getId v = id) (hex : ∃ x ∈ l, getId x = id) :
    (l.map (fun x => if getId x = id then v else x)).find?
      (fun x => getId x = id) = some v := by
  induction l with
  | nil => simp at hex
  | cons y t ih =>
    by_cases hy : getId y = id
    · rw [List.map_cons, if_pos hy, List.find?_cons_of_pos]
      simpa using hvid
    · obtain ⟨x, hx, hgx⟩ := hex
      have hxt : x ∈ t := by
        rcases List.mem_cons.mp hx with h | h
        · exact absurd (h ▸ hgx) hy
        · exact h
      rw [List.map_cons, if_neg hy, List.find?_cons_of_neg _ (by simpa using hy)]
      exact ih ⟨x, hxt, hgx⟩

lemma find?_listSet_getId (getId : α → Nat) (id : Nat) (v : α) (l : List α)
    (hvid : getId v = id) (hex : ∃ x ∈ l, getId x = id) :
    (listSet getId id v l).find? (fun x => getId x = id) = some v := by
  unfold listSet
  rw [if_pos]
  · exact find?_map_ite_getId getId id v l hvid hex
  · rw [List.any_eq_true]
    obtain ⟨x, hx, hgx⟩ := hex
    exact ⟨x, hx, by simpa using hgx⟩

lemma find?_append_singleton (p : α → Bool) (v : α) (l : List α)
    (hv : p v = false) : (l ++ [v]).find? p = l.find? p := by
  induction l with
  | nil => simp [List.find?, hv]
  | cons y t ih =>
    by_cases hy : p y
    · simp only [List.cons_append, List.find?_cons_of_pos _ hy]
    · simp only [List.cons_append, List.find?_cons_of_neg _ hy, ih]

lemma find?_map_ite_frame (getId : α → Nat) (id : Nat) (v : α) (l : List α)
    (p : α → Bool) (hv : p v = false)
    (hrep : ∀ x ∈ l, getId x = id → p x = false) :
    (l.map (fun x => if getId x = id then v else x)).find? p = l.find? p := by
  induction l with
  | nil => simp
  | cons y t ih =>
    have iht := ih (fun x hx => hrep x (List.mem_cons_of_mem y hx))
    by_cases hy : getId y = id
    · have hpy : p y = false := hrep y (List.mem_cons_self y t) hy
      rw [List.map_cons, if_pos hy, List.find?_cons_of_neg _ (by simp [hv]),
        List.find?_cons_of_neg _ (by simp [hpy]), iht]
    · by_cases hpy : p y
      · rw [List.map_cons, if_neg hy, List.find?_cons_of_pos _ hpy,
          List.find?_cons_of_pos _ hpy]
      · rw [List.map_cons, if_neg hy, List.find?_cons_of_neg _ hpy,
          List.find?_cons_of_neg _ hpy, iht]

lemma find?_listSet_frame (getId : α → Nat) (id : Nat) (v : α) (l : List α)
    (p : α → Bool) (hv : p v = false)
    (hrep : ∀ x ∈ l, getId x = id → p x = false) :
    (listSet getId id v l).find? p = l.find? p := by
  unfold listSet
  split
  · exact find?_map_ite_frame getId id v l p hv hrep
  · exact find?_append_singleton p v l hv

lemma find?_append_singleton_pos (p : α → Bool) (v : α) (l : List α)
    (hv : p v = true) (hl : ∀ x ∈ l, p x = false) :
    (l ++ [v]).find? p = some v := by
  induction l with
  | nil => simp [List.find?, hv]
  | cons y t ih =>
    have hy : p y = false := hl y (List.mem_cons_self y t)
    rw [List.cons_append, List.find?_cons_of_neg _ (by simp [hy])]
    exact ih (fun x hx => hl x (List.mem_cons_of_mem y hx))

lemma find?_map_ite_self (getId : α → Nat) (id : Nat) (v : α) (l : List α)
    (p : α → Bool) (hvp : p v = true) (hl : ∀ x ∈ l, p x = false)
    (hex : ∃ x ∈ l, getId x = id) :
    (l.map (fun x => if getId x = id then v else x)).find? p = some v := by
  induction l with
  | nil => simp at hex
  | cons y t ih =>
    by_cases hy : getId y = id
    · rw [List.map_cons, if_pos hy, List.find?_cons_of_pos _ hvp]
    · obtain ⟨x, hx, hgx⟩ := hex
      have hxt : x ∈ t := by
        rcases List.mem_cons.mp hx with h | h
        · exact absurd (h ▸ hgx) hy
        · exact h
      have hpy : p y = false := hl y (List.mem_cons_self y t)
      rw [List.map_cons, if_neg hy, List.find?_cons_of_neg _ (by simp [hpy])]
      exact ih (fun x hx => hl x (List.mem_cons_of_mem y hx)) ⟨x, hxt, hgx⟩

lemma find?_listSet_self (getId : α → Nat) (id : Nat) (v : α) (l : List α)
    (p : α → Bool) (hvp : p v = true) (hl : ∀ x ∈ l, p x = false) :
    (listSet getId id v l).find? p = some v := by
  unfold listSet
  split
  · next hany =>
    rw [List.any_eq_true] at hany
    obtain ⟨x, hx, hgx⟩ := hany
    exact find?_map_ite_self getId id v l p hvp hl ⟨x, hx, by simpa using hgx⟩
  · exact find?_append_singleton_pos p v l hvp hl

lemma listDelete_snd (getId : α → Nat) (id : Nat) (l : List α) :
    (listDelete getId id l).2 = l.filter (fun x => getId x ≠ id) := by
  unfold listDelete
  split
  · rfl
  · next h =>
    rw [eq_comm, List.filter_eq_self]
    intro x hx
    by_contra hc
    exact h (List.any_eq_true.mpr ⟨x, hx, by simpa using hc⟩)

lemma mem_of_unique_getId (getId : α → Nat) (l : List α)
    (hl : l.Pairwise (fun a b => getId a ≠ getId b))
    {x y : α} (hx : x ∈ l) (hy : y ∈ l) (hxy : getId x = getId y) : x = y := by
  induction l with
  | nil => simp at hx
  | cons z t ih =>
    rcases List.pairwise_cons.mp hl with ⟨hz, ht⟩
    rcases List.mem_cons.mp hx with hx1 | hx1 <;>
      rcases List.mem_cons.mp hy with hy1 | hy1
    · exact hx1.trans hy1.symm
    · exact absurd (hx1 ▸ hxy) (hz y hy1)
    · exact absurd (hy1 ▸ hxy.symm) (hz x hx1)
    · exact ih ht hx1 hy1

end ListLemmas

/-! ## C9: assignProductToCategory is idempotent -/

/-- C9: calling assignProductToCategory a second time with the same
product and category returns the already-existing link record and leaves
the storage state unchanged: the second call is the identity, so no new id
is allocated and no new record is inserted. -/
theorem assignProductToCategory_idempotent (st : State) (ipc : InsertProductCategory) :
    assignProductToCategory (assignProductToCategory st ipc).2 ipc =
      assignProductToCategory st ipc := by
  unfold assignProductToCategory
  cases h : st.productCategories.find? (pcPairEq ipc) with
  | some existing => simp [h]
  | none =>
    have hall := List.find?_eq_none.mp h
    simp only [h]
    rw [find?_listSet_self ProductCategory.id st.productCategoryIdCounter
      ⟨st.productCategoryIdCounter, ipc.product_id, ipc.category_id⟩
      st.productCategories _ (by simp [pcPairEq]) (fun x hx => by simpa using hall x hx)]

/-! ## C7: listProducts applies the given filters conjunctively -/

/-- C7: MemStorage.listProducts returns exactly the stored products that
satisfy every given filter field: seller match if sellerId is given, status
match if status is given, and a productCategories link if categoryId is
given; no other product is returned. -/
theorem listProducts_filter_conjunctive (st : State) (f : ProductFilter) (p : Product) :
    p ∈ listProducts st (some f) ↔
      p ∈ st.products ∧
      (∀ sid, f.sellerId = some sid → p.seller_id = sid) ∧
      (∀ s, f.status = some s → p.status = s) ∧
      (∀ cid, f.categoryId = some cid →
        ∃ pc ∈ st.productCategories, pc.product_id = p.id ∧ pc.category_id = cid) := by
  unfold listProducts
  obtain ⟨sid?, cid?, s?⟩ := f
  cases sid? <;> cases s? <;> cases cid? <;>
    simp [List.mem_filter, List.mem_map] <;> aesop

/-! ## C4: the backend priority chain -/

/-- C4: with DB_TYPE unset or auto, getDatabaseType picks postgres when
DATABASE_URL is defined, else mysql when MYSQL_DATABASE is defined, else
memory; and when MySQL initialization throws or its availability check
fails, initMySqlStorage falls back to Postgres when DATABASE_URL is defined
(the Postgres constructor succeeding) and to in-memory storage otherwise. -/
theorem backendSelectionPriorityChain :
    (∀ env : Env, env.dbType = none ∨ env.dbType = some "auto" →
      getDatabaseType env =
        (if postgresConfigAvailable env then "postgres"
         else if mysqlConfigAvailable env then "mysql" else "memory")) ∧
    (∀ mysqlInitThrows mysqlCheckOk pgConfigured : Bool,
      mysqlInitThrows = true ∨ mysqlCheckOk = false →
      initMySqlStorage mysqlInitThrows mysqlCheckOk pgConfigured false =
        (if pgConfigured then StorageKind.postgres else StorageKind.memory)) := by
  constructor
  · intro env h
    unfold getDatabaseType
    rcases h with h | h <;> simp [h, optStrTruthy]
  · intro a b c h
    unfold initMySqlStorage initPostgresStorage
    rcases h with h | h
    · subst h
      cases c <;> simp
    · subst h
      cases a <;> cases c <;> simp

/-- Witness for C4 at concrete environments: auto-detection with only
DATABASE_URL set lands on postgres, and a throwing MySQL init with Postgres
configured falls back to postgres. -/
theorem backendSelectionPriorityChain_witness :
    getDatabaseType ⟨none, some "postgres://db", none⟩ = "postgres" ∧
    initMySqlStorage true true true false = StorageKind.postgres := by
  constructor
  · have h := backendSelectionPriorityChain.1 ⟨none, some "postgres://db", none⟩ (Or.inl rfl)
    simpa using h
  · have h := backendSelectionPriorityChain.2 true true true (Or.inl rfl)
    simpa using h

/-! ## C5: the exported storage implementation is fixed at startup -/

/-- C5: the exported storage is determined once from the environment:
DbStorage for determined type postgres, MySqlStorage for mysql, MemStorage
for every other determined type, and MemStorage whenever the chosen
constructor throws. -/
theorem storageSelectionFixedAtStartup :
    (∀ (env : Env) (ctorThrows : Bool),
       storageFor env ctorThrows = selectStorage (getDatabaseType env) ctorThrows) ∧
    selectStorage "postgres" false = StorageKind.postgres ∧
    selectStorage "mysql" false = StorageKind.mysql ∧
    (∀ t : String, t ≠ "postgres" → t ≠ "mysql" →
       selectStorage t false = StorageKind.memory) ∧
    (∀ t : String, selectStorage t true = StorageKind.memory) := by
  refine ⟨fun _ _ => rfl, rfl, rfl, ?_, fun t => rfl⟩
  intro t h1 h2
  simp [selectStorage, h1, h2]

/-- Witness for C5: an unrecognized determined type lands on MemStorage. -/
theorem storageSelectionFixedAtStartup_witness :
    selectStorage "sqlite" false = StorageKind.memory :=
  storageSelectionFixedAtStartup.2.2.2.1 "sqlite" (by decide) (by decide)

/-! ## C6: hasRole rejections leave storage untouched -/

/-- C6: for any route wrapped in hasRole, an unauthenticated request gets
401 and a request by a user whose role is not allowed gets 403; in both
cases the wrapped handler never runs, so the returned state is exactly the
incoming state whatever the handler would have done. -/
theorem hasRoleRejections :
    (∀ (roles : RoleArg) (handler : State → Nat × State) (st : State),
       hasRole roles none handler st = (401, st)) ∧
    (∀ (roles : RoleArg) (handler : State → Nat × State) (st : State) (u : User),
       u.role ∉ allowedRolesOf roles →
       hasRole roles (some u) handler st = (403, st)) := by
  constructor
  · intro roles handler st
    rfl
  · intro roles handler st u h
    show (if (allowedRolesOf roles).contains u.role = true then handler st
          else (403, st)) = (403, st)
    rw [if_neg]
    simpa using h

/-- Witness for C6: a customer hitting an admin-only route is rejected with
403 and the state is unchanged, although the handler would have changed it. -/
theorem hasRoleRejections_witness :
    hasRole (.one "admin") (some bobUser) (fun _ => (204, State.empty)) bobState =
      (403, bobState) :=
  hasRoleRejections.2 (.one "admin") (fun _ => (204, State.empty)) bobState bobUser
    (by decide)

/-! ## C1: passwords are handled in plaintext -/

lemma registerCreate_created (st : State) (body : RegisterBody) (now : Nat)
    (sid : String) (u : User) (st' : State)
    (h : registerCreate st body now sid = (.created u, st')) :
    u.password = body.password ∧ u ∈ st'.users := by
  unfold registerCreate at h
  rw [Prod.mk.injEq, RegisterResult.created.injEq] at h
  obtain ⟨hu, hst⟩ := h
  refine ⟨by rw [← hu]; rfl, ?_⟩
  rw [← hst, ← hu]
  by_cases hs : ((createUser st
      { username := body.username, name := body.name,
        email := body.email, password := hashPassword body.password,
        phone_number := body.phone_number, address := body.address,
        role := strOrDefault body.role "customer" } now).1.role = "seller"
      ∧ optStrTruthy body.shop_name)
  · rw [if_pos hs]
    exact mem_listSet_self User.id st.userIdCounter _ st.users rfl
  · rw [if_neg hs]
    exact mem_listSet_self User.id st.userIdCounter _ st.users rfl

/-- C1: hashPassword is the identity, comparePasswords is string equality,
every user created by POST /api/register is stored with exactly the
supplied password, and the login strategy authenticates only when the
supplied password equals the stored one. -/
theorem plaintextPasswords :
    (∀ password, hashPassword password = password) ∧
    (∀ supplied stored, comparePasswords supplied stored = true ↔ supplied = stored) ∧
    (∀ (st : State) (body : RegisterBody) (now : Nat) (sid : String) (u : User)
       (st' : State),
       register st body now sid = (.created u, st') →
       u.password = body.password ∧ u ∈ st'.users) ∧
    (∀ (st : State) (username password : String) (u : User),
       localStrategyAuth st username password = some u → password = u.password) := by
  refine ⟨fun _ => rfl, fun s t => by simp [comparePasswords], ?_, ?_⟩
  · intro st body now sid u st' h
    unfold register at h
    repeat' split at h
    all_goals try simp at h
    all_goals try split at h
    all_goals
      first
        | exact registerCreate_created st body now sid u st' h
        | simp at h
  · intro st username password u h
    cases hu : getUserByUsername st username with
    | none =>
      unfold localStrategyAuth at h
      rw [hu] at h
      simp at h
    | some v =>
      have h' : (if comparePasswords password v.password = true then some v
                 else none) = some u := by
        rw [← h]
        unfold localStrategyAuth
        rw [hu]
      by_cases hcmp : comparePasswords password v.password = true
      · rw [if_pos hcmp] at h'
        obtain rfl : v = u := by injection h'
        simpa [comparePasswords] using hcmp
      · rw [if_neg hcmp] at h'
        simp at h'

/-- Witness for C1: registering alice with password secret1 stores that
exact password, and logging in with it succeeds. -/
theorem plaintextPasswords_witness :
    regUser0.password = regBody0.password ∧ regUser0 ∈ regState0.users ∧
    "secret1" = regUser0.password := by
  have h3 := plaintextPasswords.2.2.1 State.empty regBody0 0 "SELLER-1" regUser0 regState0
    (by decide)
  have h4 := plaintextPasswords.2.2.2 regState0 "alice" "secret1" regUser0 (by decide)
  exact ⟨h3.1, h3.2, h4⟩

/-! ## C10: case-insensitive username and email lookup -/

/-- C10: getUserByUsername and getUserByEmail match up to letter case, and
consequently POST /api/register rejects with the duplicate-username error
any valid registration whose username equals an existing username up to
case. -/
theorem caseInsensitiveLookup :
    (∀ (st : State) (q : String) (u : User),
       getUserByUsername st q = some u → strLower u.username = strLower q) ∧
    (∀ (st : State) (q : String) (u : User),
       getUserByEmail st q = some u →
       ∃ em, u.email = some em ∧ strLower em = strLower q) ∧
    (∀ (st : State) (body : RegisterBody) (now : Nat) (sid : String),
       loginUserValid body →
       (∃ u ∈ st.users, strLower u.username = strLower body.username) →
       register st body now sid = (.usernameExists, st)) := by
  refine ⟨?_, ?_, ?_⟩
  · intro st q u h
    have hp := List.find?_some h
    simpa using hp
  · intro st q u h
    have hp := List.find?_some h
    simp only at hp
    cases hmail : u.email with
    | none => rw [hmail] at hp; simp at hp
    | some em =>
      rw [hmail] at hp
      exact ⟨em, rfl, by simpa using hp⟩
  · intro st body now sid hval hex
    unfold register
    rw [if_neg (by simpa using hval)]
    have hsome : (getUserByUsername st body.username).isSome := by
      unfold getUserByUsername
      rw [List.find?_isSome]
      obtain ⟨u, hu, he⟩ := hex
      exact ⟨u, hu, by simpa using he⟩
    obtain ⟨u, hu⟩ := Option.isSome_iff_exists.mp hsome
    rw [hu]

/-- Witness for C10: with user Bob stored, registering as BOB is rejected
with the duplicate-username error. -/
theorem caseInsensitiveLookup_witness :
    register bobState { username := "BOB", password := "secret1" } 3 "S-2" =
      (.usernameExists, bobState) :=
  caseInsensitiveLookup.2.2 bobState { username := "BOB", password := "secret1" } 3 "S-2"
    (by decide) ⟨bobUser, by decide, by decide⟩

/-! ## C8: addCartItem and duplicate (cart, product) pairs -/

lemma getCartItem_of_mem_unique (st : State) (ex : CartItem)
    (hIds : st.cartItems.Pairwise (fun a b => a.id ≠ b.id))
    (hmem : ex ∈ st.cartItems) : getCartItem st ex.id = some ex := by
  have hsome : (st.cartItems.find? (fun it => it.id = ex.id)).isSome :=
    List.find?_isSome.mpr ⟨ex, hmem, by simp⟩
  obtain ⟨x, hx⟩ := Option.isSome_iff_exists.mp hsome
  have hx_mem := List.mem_of_find?_eq_some hx
  have hxid : x.id = ex.id := by simpa using List.find?_some hx
  have : x = ex := mem_of_unique_getId CartItem.id st.cartItems hIds hx_mem hmem hxid
  rw [getCartItem, hx, this]

lemma cartItems_listSet_update (l : List CartItem) (ex ex' : CartItem)
    (hmem : ex ∈ l) (hid : ex'.id = ex.id)
    (hcart : ex'.cart_id = ex.cart_id) (hprod : ex'.product_id = ex.product_id)
    (hIds : l.Pairwise (fun a b => a.id ≠ b.id))
    (hPair : l.Pairwise (fun a b => ¬(a.cart_id = b.cart_id ∧ a.product_id = b.product_id))) :
    (listSet CartItem.id ex.id ex' l).Pairwise (fun a b => a.id ≠ b.id) ∧
    (listSet CartItem.id ex.id ex' l).Pairwise
      (fun a b => ¬(a.cart_id = b.cart_id ∧ a.product_id = b.product_id)) ∧
    (∀ x ∈ listSet CartItem.id ex.id ex' l, ∃ y ∈ l, x.id = y.id) := by
  have hany : l.any (fun x => CartItem.id x = ex.id) = true := by
    rw [List.any_eq_true]
    exact ⟨ex, hmem, by simp⟩
  unfold listSet
  rw [if_pos hany]
  have hidf : ∀ x : CartItem, (if CartItem.id x = ex.id then ex' else x).id = x.id := by
    intro x
    by_cases hx : CartItem.id x = ex.id
    · rw [if_pos hx, hid]
      exact hx.symm
    · rw [if_neg hx]
  refine ⟨?_, ?_, ?_⟩
  · rw [List.pairwise_map]
    exact hIds.imp (fun hab => by simpa [hidf] using hab)
  · rw [List.pairwise_map]
    refine (hPair.and hIds).imp_of_mem ?_
    intro a b ha hb hab
    obtain ⟨hpne, hidne⟩ := hab
    by_cases haid : CartItem.id a = ex.id
    · have haex : a = ex := mem_of_unique_getId CartItem.id l hIds ha hmem haid
      have hbid : ¬ CartItem.id b = ex.id := fun hb' => hidne (haid.trans hb'.symm)
      rw [if_pos haid, if_neg hbid]
      rw [haex] at hpne
      simpa [hcart, hprod] using hpne
    · by_cases hbid : CartItem.id b = ex.id
      · have hbex : b = ex := mem_of_unique_getId CartItem.id l hIds hb hmem hbid
        rw [if_neg haid, if_pos hbid]
        rw [hbex] at hpne
        simpa [hcart, hprod] using hpne
      · rw [if_neg haid, if_neg hbid]
        exact hpne
  · intro x hx
    obtain ⟨y, hy, hxy⟩ := List.mem_map.mp hx
    exact ⟨y, hy, by rw [← hxy, hidf]⟩

/-- C8 counterexample to the claim as stated: inserting an item carrying
quantity 0 for a product already in the cart bumps the existing quantity by
1 (the JS `quantity || 1` treats 0 as missing), not by the inserted
quantity 0. -/
theorem addCartItem_quantity_zero_counterexample :
    (addCartItem c8St ⟨1, 1, some 0⟩ 5).1 = some ⟨1, 1, 1, 3, 0⟩ ∧
    (addCartItem c8St ⟨1, 1, some 0⟩ 5).2.cartItems = [⟨1, 1, 1, 3, 0⟩] ∧
    ¬ (c3Item.quantity + 0 = 3) := by
  decide

/-- C8 (amended): addCartItem never creates a duplicate (cart, product)
pair — it preserves the at-most-one-item-per-product invariant (together
with the id well-formedness every reachable state enjoys) — and when the
cart already has an item for the product it updates that item's quantity,
adding the inserted quantity except that a missing or zero quantity adds 1,
creating no new item and allocating no new id. -/
theorem addCartItem_no_duplicate_pairs :
    (∀ (st : State) (ici : InsertCartItem) (now : Nat),
       cartIdsWF st → cartPairInv st →
       cartIdsWF (addCartItem st ici now).2 ∧ cartPairInv (addCartItem st ici now).2) ∧
    (∀ (st : State) (ici : InsertCartItem) (now : Nat) (ex : CartItem),
       st.cartItems.find? (ciPairEq ici) = some ex →
       cartIdsWF st →
       (addCartItem st ici now).1 =
         some { ex with quantity := ex.quantity + intOrOne ici.quantity } ∧
       (addCartItem st ici now).2.cartItems.length = st.cartItems.length ∧
       (addCartItem st ici now).2.cartItemIdCounter = st.cartItemIdCounter) := by
  have addCartItem_update : ∀ (st : State) (ici : InsertCartItem) (now : Nat)
      (ex : CartItem), st.cartItems.find? (ciPairEq ici) = some ex →
      st.cartItems.Pairwise (fun a b => a.id ≠ b.id) →
      addCartItem st ici now =
        (some { ex with quantity := ex.quantity + intOrOne ici.quantity },
         { st with cartItems := (listSet CartItem.id ex.id
             ({ ex with quantity := ex.quantity + intOrOne ici.quantity })
             st.cartItems) }) := by
    intro st ici now ex hfind hIds
    have hmem := List.mem_of_find?_eq_some hfind
    have hstep : addCartItem st ici now =
        updateCartItem st ex.id
          { quantity := some (ex.quantity + intOrOne ici.quantity) } := by
      unfold addCartItem
      rw [hfind]
    rw [hstep]
    unfold updateCartItem
    rw [getCartItem_of_mem_unique st ex hIds hmem]
    rfl
  constructor
  · intro st ici now hWF hPair
    obtain ⟨hIds, hlt⟩ := hWF
    cases hfind : st.cartItems.find? (ciPairEq ici) with
    | some ex =>
      rw [addCartItem_update st ici now ex hfind hIds]
      have hmem := List.mem_of_find?_eq_some hfind
      obtain ⟨hIds', hPair', hsameIds⟩ :=
        cartItems_listSet_update st.cartItems ex
          { ex with quantity := ex.quantity + intOrOne ici.quantity }
          hmem rfl rfl rfl hIds hPair
      refine ⟨⟨hIds', ?_⟩, hPair'⟩
      intro x hx
      obtain ⟨y, hy, hxy⟩ := hsameIds x hx
      rw [hxy]
      exact hlt y hy
    | none =>
      have hall := List.find?_eq_none.mp hfind
      have hfresh : ∀ x ∈ st.cartItems, CartItem.id x ≠ st.cartItemIdCounter :=
        fun x hx => Nat.ne_of_lt (hlt x hx)
      have hstep : addCartItem st ici now =
          (some ⟨st.cartItemIdCounter, ici.cart_id, ici.product_id,
             intOrOne ici.quantity, now⟩,
           { st with
             cartItems := (listSet CartItem.id st.cartItemIdCounter
               (⟨st.cartItemIdCounter, ici.cart_id, ici.product_id,
                 intOrOne ici.quantity, now⟩) st.cartItems),
             cartItemIdCounter := st.cartItemIdCounter + 1 }) := by
        unfold addCartItem
        rw [hfind]
      rw [listSet_of_forall_ne CartItem.id st.cartItemIdCounter _ _ hfresh] at hstep
      rw [hstep]
      refine ⟨⟨?_, ?_⟩, ?_⟩
      · rw [List.pairwise_append]
        refine ⟨hIds, List.pairwise_singleton _ _, ?_⟩
        intro a ha b hb
        rw [List.mem_singleton.mp hb]
        exact Nat.ne_of_lt (hlt a ha)
      · intro x hx
        rcases List.mem_append.mp hx with hx | hx
        · exact Nat.lt_succ_of_lt (hlt x hx)
        · rw [List.mem_singleton.mp hx]
          exact Nat.lt_succ_self _
      · rw [cartPairInv, List.pairwise_append]
        refine ⟨hPair, List.pairwise_singleton _ _, ?_⟩
        intro a ha b hb
        rw [List.mem_singleton.mp hb]
        intro hc
        have hne : ¬ (a.cart_id = ici.cart_id ∧ a.product_id = ici.product_id) := by
          simpa [ciPairEq] using hall a ha
        exact hne ⟨hc.1, hc.2⟩
  · intro st ici now ex hfind hWF
    rw [addCartItem_update st ici now ex hfind hWF.1]
    have hmem := List.mem_of_find?_eq_some hfind
    exact ⟨rfl,
      length_listSet_of_mem CartItem.id ex.id _ st.cartItems ⟨ex, hmem, rfl⟩, rfl⟩

/-- Witness for C8 (amended) at a concrete store: adding 4 more units of an
already-carted product updates the existing item in place and keeps the
invariants. -/
theorem addCartItem_no_duplicate_pairs_witness :
    ((addCartItem c8St ⟨1, 1, some 4⟩ 9).1 =
       some { c3Item with quantity := c3Item.quantity + intOrOne (some 4) } ∧
     (addCartItem c8St ⟨1, 1, some 4⟩ 9).2.cartItems.length = c8St.cartItems.length ∧
     (addCartItem c8St ⟨1, 1, some 4⟩ 9).2.cartItemIdCounter = c8St.cartItemIdCounter) ∧
    (cartIdsWF (addCartItem c8St ⟨1, 1, some 4⟩ 9).2 ∧
     cartPairInv (addCartItem c8St ⟨1, 1, some 4⟩ 9).2) := by
  constructor
  · exact addCartItem_no_duplicate_pairs.2 c8St ⟨1, 1, some 4⟩ 9 c3Item
      (by decide) (by decide)
  · exact addCartItem_no_duplicate_pairs.1 c8St ⟨1, 1, some 4⟩ 9
      (by decide) (by decide)

/-! ## Supporting lemmas for the checkout handler (C2, C3) -/

lemma fstepV_none {α : Type} (op : State → α × State) (e : Exec) :
    fstepV none op e = .ok ((op e.st).1, ⟨(op e.st).2, e.calls + 1⟩) :=
  rfl

lemma procFrame_refl (s : State) : procFrame s s := by
  unfold procFrame
  repeat' apply And.intro
  all_goals rfl

lemma procFrame_trans {a b c : State} (h1 : procFrame a b) (h2 : procFrame b c) :
    procFrame a c := by
  unfold procFrame at h1 h2 ⊢
  obtain ⟨u1, s1, c1, pc1, ca1, ci1, o1, p1, sh1, r1, k1, k2, k3, k4, k5, k6, k7, k8, k9, k10, k11⟩ := h1
  obtain ⟨u2, s2, c2, pc2, ca2, ci2, o2, p2, sh2, r2, m1, m2, m3, m4, m5, m6, m7, m8, m9, m10, m11⟩ := h2
  exact ⟨u2.trans u1, s2.trans s1, c2.trans c1, pc2.trans pc1, ca2.trans ca1,
    ci2.trans ci1, o2.trans o1, p2.trans p1, sh2.trans sh1, r2.trans r1,
    m1.trans k1, m2.trans k2, m3.trans k3, m4.trans k4, m5.trans k5,
    m6.trans k6, m7.trans k7, m8.trans k8, m9.trans k9, m10.trans k10,
    m11.trans k11⟩

lemma clearFrame_refl (s : State) : clearFrame s s := by
  unfold clearFrame
  repeat' apply And.intro
  all_goals rfl

lemma clearFrame_trans {a b c : State} (h1 : clearFrame a b) (h2 : clearFrame b c) :
    clearFrame a c := by
  unfold clearFrame at h1 h2 ⊢
  obtain ⟨u1, s1, p1, c1, pc1, ca1, o1, oi1, pay1, sh1, r1, k1, k2, k3, k4, k5, k6, k7, k8, k9, k10, k11, k12⟩ := h1
  obtain ⟨u2, s2, p2, c2, pc2, ca2, o2, oi2, pay2, sh2, r2, m1, m2, m3, m4, m5, m6, m7, m8, m9, m10, m11, m12⟩ := h2
  exact ⟨u2.trans u1, s2.trans s1, p2.trans p1, c2.trans c1, pc2.trans pc1,
    ca2.trans ca1, o2.trans o1, oi2.trans oi1, pay2.trans pay1, sh2.trans sh1,
    r2.trans r1, m1.trans k1, m2.trans k2, m3.trans k3, m4.trans k4,
    m5.trans k5, m6.trans k6, m7.trans k7, m8.trans k8, m9.trans k9,
    m10.trans k10, m11.trans k11, m12.trans k12⟩

lemma processItems_cons_none (oid now : Nat) (item : CartItem) (rest : List CartItem)
    (e : Exec) (hp : getProduct e.st item.product_id = none) :
    processItems none oid now (item :: rest) e = processItems none oid now rest e := by
  conv_lhs => unfold processItems
  rw [hp]

lemma processItems_cons_some (oid now : Nat) (item : CartItem) (rest : List CartItem)
    (e : Exec) (product : Product)
    (hp : getProduct e.st item.product_id = some product) :
    processItems none oid now (item :: rest) e =
      processItems none oid now rest
        ⟨(updateProduct (addOrderItem e.st
            { order_id := oid, product_id := item.product_id,
              quantity := item.quantity, price := product.price }).2
            product.id { stock := some (product.stock - item.quantity) } now).2,
         e.calls + 2⟩ := by
  conv_lhs => unfold processItems
  rw [hp]
  rfl

lemma clearItems_cons (item : CartItem) (rest : List CartItem) (e : Exec) :
    clearItems none (item :: rest) e =
      clearItems none rest ⟨(removeCartItem e.st item.id).2, e.calls + 1⟩ := by
  conv_lhs => unfold clearItems
  rfl

lemma addOrderItem_eq (st : State) (ioi : InsertOrderItem)
    (hWF : ∀ oi ∈ st.orderItems, oi.id < st.orderItemIdCounter) :
    addOrderItem st ioi =
      (⟨st.orderItemIdCounter, ioi.order_id, ioi.product_id, ioi.quantity, ioi.price⟩,
       { st with
         orderItems := st.orderItems ++
           [⟨st.orderItemIdCounter, ioi.order_id, ioi.product_id, ioi.quantity,
             ioi.price⟩],
         orderItemIdCounter := st.orderItemIdCounter + 1 }) := by
  have h0 : addOrderItem st ioi =
      (⟨st.orderItemIdCounter, ioi.order_id, ioi.product_id, ioi.quantity, ioi.price⟩,
       { st with
         orderItems := (listSet OrderItem.id st.orderItemIdCounter
           (⟨st.orderItemIdCounter, ioi.order_id, ioi.product_id, ioi.quantity,
             ioi.price⟩) st.orderItems),
         orderItemIdCounter := st.orderItemIdCounter + 1 }) := rfl
  rw [h0, listSet_of_forall_ne OrderItem.id st.orderItemIdCounter _ _
    (fun x hx => Nat.ne_of_lt (hWF x hx))]

lemma updateProduct_eq (st : State) (id : Nat) (p : Product) (patch : ProductPatch)
    (now : Nat) (hfind : getProduct st id = some p) :
    updateProduct st id patch now =
      (some (applyProductPatch p patch now),
       { st with products := (listSet Product.id id (applyProductPatch p patch now)
           st.products) }) := by
  unfold updateProduct
  rw [hfind]

lemma removeCartItem_state (st : State) (id : Nat) :
    (removeCartItem st id).2 =
      { st with cartItems := st.cartItems.filter (fun x => x.id ≠ id) } := by
  have h : (removeCartItem st id).2 =
      { st with cartItems := (listDelete CartItem.id id st.cartItems).2 } := rfl
  rw [h, listDelete_snd]

lemma getProduct_listSet_ne (l : List Product) (id : Nat) (p' : Product)
    (hp' : p'.id = id) (j : Nat) (hj : ¬ j = id) :
    (listSet Product.id id p' l).find? (fun x => x.id = j) =
      l.find? (fun x => x.id = j) := by
  apply find?_listSet_frame
  · simp only [decide_eq_false_iff_not]
    rw [hp']
    exact fun h => hj h.symm
  · intro x hx hxid
    simp only [decide_eq_false_iff_not]
    rw [hxid]
    exact fun h => hj h.symm

lemma getProduct_listSet_self (l : List Product) (id : Nat) (p' : Product)
    (hp' : p'.id = id) (hex : ∃ x ∈ l, x.id = id) :
    (listSet Product.id id p' l).find? (fun x => x.id = id) = some p' :=
  find?_listSet_getId Product.id id p' l hp' hex

lemma checkItems_ok_of_stock (st : State) :
    ∀ (items : List CartItem) (t : Int),
    (∀ it ∈ items, ∃ p, getProduct st it.product_id = some p ∧ it.quantity ≤ p.stock) →
    checkItems st t items = .ok (t + orderTotal st items) := by
  intro items
  induction items with
  | nil =>
    intro t _
    simp [checkItems, orderTotal]
  | cons item rest ih =>
    intro t h
    obtain ⟨p, hp, hstock⟩ := h item (List.mem_cons_self item rest)
    have hrest := fun it hit => h it (List.mem_cons_of_mem item hit)
    conv_lhs => unfold checkItems
    simp only [hp]
    rw [if_neg (not_lt.mpr hstock), ih _ hrest]
    have : orderTotal st (item :: rest) =
        p.price * item.quantity + orderTotal st rest := by
      unfold orderTotal
      rw [List.map_cons, List.sum_cons, hp]
    rw [this]
    ring_nf

lemma clearItems_none_spec :
    ∀ (items : List CartItem) (e : Exec),
    ∃ e', clearItems none items e = .ok e' ∧ clearFrame e.st e'.st ∧
      (∀ x ∈ e'.st.cartItems, x ∈ e.st.cartItems ∧ x.id ∉ items.map CartItem.id) := by
  intro items
  induction items with
  | nil =>
    intro e
    exact ⟨e, rfl, clearFrame_refl e.st, fun x hx => ⟨hx, by simp⟩⟩
  | cons item rest ih =>
    intro e
    obtain ⟨e', hrun, hframe, hmem⟩ :=
      ih ⟨(removeCartItem e.st item.id).2, e.calls + 1⟩
    refine ⟨e', (clearItems_cons item rest e).trans hrun, ?_, ?_⟩
    · refine clearFrame_trans ?_ hframe
      rw [removeCartItem_state]
      unfold clearFrame
      repeat' apply And.intro
      all_goals rfl
    · intro x hx
      obtain ⟨hx1, hx2⟩ := hmem x hx
      rw [removeCartItem_state] at hx1
      simp only [List.mem_filter] at hx1
      obtain ⟨hx1, hxne⟩ := hx1
      refine ⟨hx1, ?_⟩
      rw [List.map_cons, List.mem_cons]
      rintro (h | h)
      · have hne : x.id ≠ item.id := by simpa using hxne
        exact hne h
      · exact hx2 h

lemma cartQty_cons (item : CartItem) (rest : List CartItem) (j : Nat) :
    cartQty (item :: rest) j =
      (if item.product_id = j then item.quantity + cartQty rest j
       else cartQty rest j) := by
  unfold cartQty
  by_cases h : item.product_id = j
  · rw [if_pos h, List.filter_cons_of_pos (by simpa using h), List.map_cons,
      List.sum_cons]
  · rw [if_neg h, List.filter_cons_of_neg (by simpa using h)]

lemma cartQty_eq_zero (items : List CartItem) (j : Nat)
    (h : j ∉ items.map CartItem.product_id) : cartQty items j = 0 := by
  unfold cartQty
  have hnil : items.filter (fun it => it.product_id = j) = [] := by
    rw [List.filter_eq_nil_iff]
    intro it hit
    simp only [decide_eq_true_eq]
    intro hc
    exact h (List.mem_map.mpr ⟨it, hit, hc⟩)
  rw [hnil]
  rfl

lemma processItems_none_spec (oid now : Nat) :
    ∀ (items : List CartItem) (e : Exec),
    (∀ oi ∈ e.st.orderItems, oi.id < e.st.orderItemIdCounter) →
    ∃ e', processItems none oid now items e = .ok e' ∧
      procFrame e.st e'.st ∧
      (∀ oi ∈ e'.st.orderItems, oi.id < e'.st.orderItemIdCounter) ∧
      e'.st.orderItems.map orderItemKey = e.st.orderItems.map orderItemKey ++
        items.filterMap (fun it => (getProduct e.st it.product_id).map
          (fun p => (oid, it.product_id, it.quantity, p.price))) ∧
      (∀ j : Nat, j ∉ items.map CartItem.product_id →
         getProduct e'.st j = getProduct e.st j) ∧
      (∀ j ∈ items.map CartItem.product_id, ∀ p, getProduct e.st j = some p →
         getProduct e'.st j =
           some { p with
                  stock := p.stock - cartQty items j,
                  last_updated := some now }) := by
  intro items
  induction items with
  | nil =>
    intro e hWF
    exact ⟨e, rfl, procFrame_refl e.st, hWF, by simp, fun j _ => rfl, by simp⟩
  | cons item rest ih =>
    intro e hWF
    cases hp : getProduct e.st item.product_id with
    | none =>
      obtain ⟨e', hrun, hframe, hWF', hmap, hfr, hdec⟩ := ih e hWF
      refine ⟨e', (processItems_cons_none oid now item rest e hp).trans hrun,
        hframe, hWF', ?_, ?_, ?_⟩
      · rw [hmap]
        have hnone : (getProduct e.st item.product_id).map
            (fun p => (oid, item.product_id, item.quantity, p.price)) = none := by
          rw [hp]
          rfl
        rw [@List.filterMap_cons_none CartItem (Nat × Nat × Int × Int)
          (fun it => (getProduct e.st it.product_id).map
            (fun p => (oid, it.product_id, it.quantity, p.price))) item rest hnone]
      · intro j hj
        refine hfr j ?_
        intro hmem
        apply hj
        rw [List.map_cons]
        exact List.mem_cons_of_mem _ hmem
      · intro j hj p hpp
        have hc : ¬ j = item.product_id := by
          intro h
          rw [h, hp] at hpp
          cases hpp
        have hr : j ∈ rest.map CartItem.product_id := by
          rw [List.map_cons, List.mem_cons] at hj
          rcases hj with h | h
          · exact absurd h hc
          · exact h
        rw [hdec j hr p hpp, cartQty_cons, if_neg (fun h => hc h.symm)]
    | some product =>
      have hpid : product.id = item.product_id := by simpa using List.find?_some hp
      have hpmem : product ∈ e.st.products := List.mem_of_find?_eq_some hp
      have haoi := addOrderItem_eq e.st
        { order_id := oid, product_id := item.product_id,
          quantity := item.quantity, price := product.price } hWF
      have hgA : getProduct (addOrderItem e.st
          { order_id := oid, product_id := item.product_id,
            quantity := item.quantity, price := product.price }).2 product.id =
          some product := by
        rw [hpid]
        exact hp
      have hupd := updateProduct_eq (addOrderItem e.st
          { order_id := oid, product_id := item.product_id,
            quantity := item.quantity, price := product.price }).2 product.id product
          { stock := some (product.stock - item.quantity) } now hgA
      have hstB : (updateProduct (addOrderItem e.st
          { order_id := oid, product_id := item.product_id,
            quantity := item.quantity, price := product.price }).2 product.id
          { stock := some (product.stock - item.quantity) } now).2 =
          { e.st with
            products := (listSet Product.id product.id
              (applyProductPatch product
                { stock := some (product.stock - item.quantity) } now) e.st.products),
            orderItems := e.st.orderItems ++
              [⟨e.st.orderItemIdCounter, oid, item.product_id, item.quantity,
                product.price⟩],
            orderItemIdCounter := e.st.orderItemIdCounter + 1 } := by
        rw [hupd]
        simp only [haoi]
      have hstep := processItems_cons_some oid now item rest e product hp
      rw [hstB] at hstep
      have hWF2 : ∀ oi ∈ (e.st.orderItems ++
          [(⟨e.st.orderItemIdCounter, oid, item.product_id, item.quantity,
            product.price⟩ : OrderItem)]), oi.id < e.st.orderItemIdCounter + 1 := by
        intro oi hoi
        rcases List.mem_append.mp hoi with hoi | hoi
        · exact Nat.lt_succ_of_lt (hWF oi hoi)
        · rw [List.mem_singleton.mp hoi]
          exact Nat.lt_succ_self _
      obtain ⟨e', hrun, hframe, hWF', hmap, hfr, hdec⟩ :=
        ih ⟨{ e.st with
              products := (listSet Product.id product.id
                (applyProductPatch product
                  { stock := some (product.stock - item.quantity) } now) e.st.products),
              orderItems := e.st.orderItems ++
                [⟨e.st.orderItemIdCounter, oid, item.product_id, item.quantity,
                  product.price⟩],
              orderItemIdCounter := e.st.orderItemIdCounter + 1 },
            e.calls + 2⟩ hWF2
      have hgB : ∀ j : Nat, ¬ j = item.product_id →
          getProduct { e.st with
            products := (listSet Product.id product.id
              (applyProductPatch product
                { stock := some (product.stock - item.quantity) } now) e.st.products),
            orderItems := e.st.orderItems ++
              [⟨e.st.orderItemIdCounter, oid, item.product_id, item.quantity,
                product.price⟩],
            orderItemIdCounter := e.st.orderItemIdCounter + 1 } j = getProduct e.st j := by
        intro j hj
        show (listSet Product.id product.id
            (applyProductPatch product
              { stock := some (product.stock - item.quantity) } now)
            e.st.products).find? (fun x => x.id = j) =
          e.st.products.find? (fun x => x.id = j)
        exact getProduct_listSet_ne e.st.products product.id
          (applyProductPatch product
            { stock := some (product.stock - item.quantity) } now) rfl j
          (by rw [hpid]; exact hj)
      have hB_self : getProduct { e.st with
          products := (listSet Product.id product.id
            (applyProductPatch product
              { stock := some (product.stock - item.quantity) } now) e.st.products),
          orderItems := e.st.orderItems ++
            [⟨e.st.orderItemIdCounter, oid, item.product_id, item.quantity,
              product.price⟩],
          orderItemIdCounter := e.st.orderItemIdCounter + 1 } item.product_id =
          some (applyProductPatch product
            { stock := some (product.stock - item.quantity) } now) := by
        show (listSet Product.id product.id
            (applyProductPatch product
              { stock := some (product.stock - item.quantity) } now)
            e.st.products).find? (fun x => x.id = item.product_id) = _
        rw [← hpid]
        exact getProduct_listSet_self e.st.products product.id
          (applyProductPatch product
            { stock := some (product.stock - item.quantity) } now) rfl
          ⟨product, hpmem, rfl⟩
      refine ⟨e', hstep.trans hrun, ?_, hWF', ?_, ?_, ?_⟩
      · refine procFrame_trans ?_ hframe
        unfold procFrame
        repeat' apply And.intro
        all_goals rfl
      · rw [hmap]
        have hfm : rest.filterMap (fun it =>
            (getProduct { e.st with
              products := (listSet Product.id product.id
                (applyProductPatch product
                  { stock := some (product.stock - item.quantity) } now) e.st.products),
              orderItems := e.st.orderItems ++
                [⟨e.st.orderItemIdCounter, oid, item.product_id, item.quantity,
                  product.price⟩],
              orderItemIdCounter := e.st.orderItemIdCounter + 1 } it.product_id).map
              (fun p => (oid, it.product_id, it.quantity, p.price))) =
            rest.filterMap (fun it => (getProduct e.st it.product_id).map
              (fun p => (oid, it.product_id, it.quantity, p.price))) := by
          apply List.filterMap_congr
          intro it2 hit2
          by_cases hc : it2.product_id = item.product_id
          · rw [hc, hB_self, hp]
            rfl
          · rw [hgB it2.product_id hc]
        have hsome : (getProduct e.st item.product_id).map
            (fun p => (oid, item.product_id, item.quantity, p.price)) =
            some (oid, item.product_id, item.quantity, product.price) := by
          rw [hp]
          rfl
        rw [hfm, @List.filterMap_cons_some CartItem (Nat × Nat × Int × Int)
          (fun it => (getProduct e.st it.product_id).map
            (fun p => (oid, it.product_id, it.quantity, p.price))) item rest
          (oid, item.product_id, item.quantity, product.price) hsome]
        show (e.st.orderItems ++
            [(⟨e.st.orderItemIdCounter, oid, item.product_id, item.quantity,
              product.price⟩ : OrderItem)]).map orderItemKey ++
            rest.filterMap _ = _
        rw [List.map_append]
        rw [List.append_assoc]
        rfl
      · intro j hj
        rw [List.map_cons, List.mem_cons] at hj
        push_neg at hj
        rw [hfr j hj.2]
        exact hgB j hj.1
      · intro j hj p hpp
        by_cases hc : j = item.product_id
        · subst hc
          have hpprod : p = product := by
            rw [hp] at hpp
            exact (Option.some.inj hpp).symm
          subst hpprod
          by_cases hr : item.product_id ∈ rest.map CartItem.product_id
          · rw [hdec item.product_id hr
              (applyProductPatch p { stock := some (p.stock - item.quantity) } now)
              hB_self]
            show some ({ p with
                stock := p.stock - item.quantity - cartQty rest item.product_id,
                last_updated := some now } : Product) =
              some ({ p with
                stock := p.stock - cartQty (item :: rest) item.product_id,
                last_updated := some now } : Product)
            rw [cartQty_cons, if_pos rfl, sub_sub]
          · rw [hfr item.product_id hr, hB_self]
            show some ({ p with
                stock := p.stock - item.quantity,
                last_updated := some now } : Product) =
              some ({ p with
                stock := p.stock - cartQty (item :: rest) item.product_id,
                last_updated := some now } : Product)
            rw [cartQty_cons, if_pos rfl, cartQty_eq_zero rest item.product_id hr,
              add_zero]
        · have hr : j ∈ rest.map CartItem.product_id := by
            rw [List.map_cons, List.mem_cons] at hj
            rcases hj with h | h
            · exact absurd h hc
            · exact h
          have hppB : getProduct { e.st with
              products := (listSet Product.id product.id
                (applyProductPatch product
                  { stock := some (product.stock - item.quantity) } now) e.st.products),
              orderItems := e.st.orderItems ++
                [⟨e.st.orderItemIdCounter, oid, item.product_id, item.quantity,
                  product.price⟩],
              orderItemIdCounter := e.st.orderItemIdCounter + 1 } j = some p := by
            rw [hgB j hc]
            exact hpp
          rw [hdec j hr p hppB, cartQty_cons, if_neg (fun h => hc h.symm)]

lemma orderFinalize_none_spec (order : Order) (total : Int) (body : OrderBody)
    (pid sid : String) (now : Nat) (items : List CartItem) (e1 : Exec) :
    ∃ (payment : Payment) (shipment : Shipment) (st' : State),
      orderFinalize none order total body pid sid now items e1 =
        (.created order payment shipment, st') ∧
      payment.amount = total ∧ payment.status = "completed" ∧
      payment.order_id = order.id ∧
      shipment.status = "processing" ∧ shipment.order_id = order.id ∧
      payment ∈ st'.payments ∧ shipment ∈ st'.shipments ∧
      st'.orders = e1.st.orders ∧
      st'.orderItems = e1.st.orderItems ∧
      st'.products = e1.st.products ∧
      (∀ x ∈ st'.cartItems, x ∈ e1.st.cartItems ∧ x.id ∉ items.map CartItem.id) := by
  have hcol : orderFinalize none order total body pid sid now items e1 =
      (match clearItems none items
          ⟨(createShipment (createPayment e1.st
              { payment_id := pid, order_id := order.id, amount := total,
                method := strOrDefault body.payment_method "credit_card",
                status := "completed" } now).2
              { shipment_id := sid, order_id := order.id,
                estimated_delivery := some (now + 7 * 24 * 60 * 60 * 1000),
                tracking_number := none, carrier := none,
                status := "processing" } now).2, e1.calls + 2⟩ with
        | .error e => ((.errorPassed : OrderResp), e.st)
        | .ok e4 =>
          (.created order
            (createPayment e1.st
              { payment_id := pid, order_id := order.id, amount := total,
                method := strOrDefault body.payment_method "credit_card",
                status := "completed" } now).1
            (createShipment (createPayment e1.st
                { payment_id := pid, order_id := order.id, amount := total,
                  method := strOrDefault body.payment_method "credit_card",
                  status := "completed" } now).2
                { shipment_id := sid, order_id := order.id,
                  estimated_delivery := some (now + 7 * 24 * 60 * 60 * 1000),
                  tracking_number := none, carrier := none,
                  status := "processing" } now).1, e4.st)) := by
    conv_lhs => unfold orderFinalize
    rfl
  obtain ⟨e4, hclear, hframe, hmem⟩ := clearItems_none_spec items
    ⟨(createShipment (createPayment e1.st
        { payment_id := pid, order_id := order.id, amount := total,
          method := strOrDefault body.payment_method "credit_card",
          status := "completed" } now).2
        { shipment_id := sid, order_id := order.id,
          estimated_delivery := some (now + 7 * 24 * 60 * 60 * 1000),
          tracking_number := none, carrier := none,
          status := "processing" } now).2, e1.calls + 2⟩
  rw [hclear] at hcol
  obtain ⟨hu, hs, hpr, hc, hpc, hca, ho, hoi, hpay, hsh, hr, _, _, _, _, _, _, _, _, _, _, _, _⟩ := hframe
  refine ⟨_, _, e4.st, hcol.trans rfl, rfl, rfl, rfl, rfl, rfl, ?_, ?_, ho, hoi, hpr, ?_⟩
  · rw [hpay]
    show (createPayment e1.st
        { payment_id := pid, order_id := order.id, amount := total,
          method := strOrDefault body.payment_method "credit_card",
          status := "completed" } now).1 ∈
      listSet Payment.id e1.st.paymentIdCounter
        (createPayment e1.st
          { payment_id := pid, order_id := order.id, amount := total,
            method := strOrDefault body.payment_method "credit_card",
            status := "completed" } now).1 e1.st.payments
    exact mem_listSet_self Payment.id e1.st.paymentIdCounter _ e1.st.payments rfl
  · rw [hsh]
    exact mem_listSet_self Shipment.id
      (createPayment e1.st
        { payment_id := pid, order_id := order.id, amount := total,
          method := strOrDefault body.payment_method "credit_card",
          status := "completed" } now).2.shipmentIdCounter _ _ rfl
  · intro x hx
    exact hmem x hx

/-! ## C2: the fault-free checkout flow -/

/-- C2 (amended): for a checkout by an authenticated user with a non-empty
cart, enough stock for every cart item, and a request body that does not
supply its own total_price (which the `...req.body` spread would otherwise
let override the computed total), the handler creates the order with
total_price the sum of price times quantity, adds an order item per cart
item at the product's current price, decrements each cart item's product
stock by the item's quantity (so each product ends at its old stock minus
the cart's total quantity for it), creates a completed payment over the
order total and a processing shipment, removes every item from the cart,
and answers 201 with the order, payment and shipment. -/
theorem placeOrder_success_effects
    (st : State) (user : User) (body : OrderBody) (oid pid sid : String) (now : Nat)
    (cart : Cart)
    (hcart : getCartByUserId st user.id = some cart)
    (hne : getCartItems st cart.id ≠ [])
    (hstock : ∀ it ∈ getCartItems st cart.id, ∃ p,
      getProduct st it.product_id = some p ∧ it.quantity ≤ p.stock)
    (hWF : ∀ o ∈ st.orderItems, o.id < st.orderItemIdCounter)
    (hbody : body.total_price = none) :
    ∃ (order : Order) (payment : Payment) (shipment : Shipment) (st' : State),
      placeOrder none st user body oid pid sid now =
        (.created order payment shipment, st') ∧
      order.total_price = orderTotal st (getCartItems st cart.id) ∧
      payment.amount = orderTotal st (getCartItems st cart.id) ∧
      payment.status = "completed" ∧
      shipment.status = "processing" ∧
      order ∈ st'.orders ∧ payment ∈ st'.payments ∧ shipment ∈ st'.shipments ∧
      st'.orderItems.map orderItemKey = st.orderItems.map orderItemKey ++
        (getCartItems st cart.id).filterMap (fun it =>
          (getProduct st it.product_id).map
            (fun p => (order.id, it.product_id, it.quantity, p.price))) ∧
      (∀ it ∈ getCartItems st cart.id, ∀ p, getProduct st it.product_id = some p →
        ∃ p', getProduct st' it.product_id = some p' ∧
          p'.stock = p.stock - cartQty (getCartItems st cart.id) it.product_id ∧
          p'.price = p.price) ∧
      getCartItems st' cart.id = [] := by
  have hlen : ¬ ((getCartItems st cart.id).length = 0) := by
    simpa [List.length_eq_zero] using hne
  have h0 : placeOrder none st user body oid pid sid now =
      (if (getCartItems st cart.id).length = 0 then (.badRequest "Cart is empty", st)
       else
        match checkItems st 0 (getCartItems st cart.id) with
        | .error msg => ((.badRequest msg : OrderResp), st)
        | .ok totalPrice =>
          placeOrderChecked none st user (getCartItems st cart.id) totalPrice body
            oid pid sid now) := by
    conv_lhs => unfold placeOrder
    rw [hcart]
  rw [if_neg hlen] at h0
  have hcheck := checkItems_ok_of_stock st (getCartItems st cart.id) 0 hstock
  rw [zero_add] at hcheck
  rw [hcheck] at h0
  have h1 : placeOrder none st user body oid pid sid now =
      placeOrderChecked none st user (getCartItems st cart.id)
        (orderTotal st (getCartItems st cart.id)) body oid pid sid now :=
    h0.trans rfl
  have h2 : placeOrderChecked none st user (getCartItems st cart.id)
      (orderTotal st (getCartItems st cart.id)) body oid pid sid now =
      (match processItems none
          (createOrder st
            { order_id := body.order_id.getD oid,
              customer_id := body.customer_id.getD user.id,
              total_price := body.total_price.getD
                (orderTotal st (getCartItems st cart.id)),
              status := body.status } now).1.id now (getCartItems st cart.id)
          ⟨(createOrder st
            { order_id := body.order_id.getD oid,
              customer_id := body.customer_id.getD user.id,
              total_price := body.total_price.getD
                (orderTotal st (getCartItems st cart.id)),
              status := body.status } now).2, 0⟩ with
       | .error e => ((.errorPassed : OrderResp), e.st)
       | .ok e1 =>
         orderFinalize none
           (createOrder st
             { order_id := body.order_id.getD oid,
               customer_id := body.customer_id.getD user.id,
               total_price := body.total_price.getD
                 (orderTotal st (getCartItems st cart.id)),
               status := body.status } now).1
           (orderTotal st (getCartItems st cart.id)) body pid sid now
           (getCartItems st cart.id) e1) := by
    conv_lhs => unfold placeOrderChecked
  obtain ⟨e1, hproc, hframe1, hWF1, hmap1, hfr1, hdec1⟩ :=
    processItems_none_spec
      (createOrder st
        { order_id := body.order_id.getD oid,
          customer_id := body.customer_id.getD user.id,
          total_price := body.total_price.getD
            (orderTotal st (getCartItems st cart.id)),
          status := body.status } now).1.id now (getCartItems st cart.id)
      ⟨(createOrder st
        { order_id := body.order_id.getD oid,
          customer_id := body.customer_id.getD user.id,
          total_price := body.total_price.getD
            (orderTotal st (getCartItems st cart.id)),
          status := body.status } now).2, 0⟩ hWF
  rw [hproc] at h2
  have h3 : placeOrderChecked none st user (getCartItems st cart.id)
      (orderTotal st (getCartItems st cart.id)) body oid pid sid now =
      orderFinalize none
        (createOrder st
          { order_id := body.order_id.getD oid,
            customer_id := body.customer_id.getD user.id,
            total_price := body.total_price.getD
              (orderTotal st (getCartItems st cart.id)),
            status := body.status } now).1
        (orderTotal st (getCartItems st cart.id)) body pid sid now
        (getCartItems st cart.id) e1 :=
    h2.trans rfl
  obtain ⟨payment, shipment, st', hfin, hamount, hpstat, hpoid, hsstat, hsoid,
    hpmemP, hsmemS, hords, hois, hprods, hcartm⟩ :=
    orderFinalize_none_spec
      (createOrder st
        { order_id := body.order_id.getD oid,
          customer_id := body.customer_id.getD user.id,
          total_price := body.total_price.getD
            (orderTotal st (getCartItems st cart.id)),
          status := body.status } now).1
      (orderTotal st (getCartItems st cart.id)) body pid sid now
      (getCartItems st cart.id) e1
  obtain ⟨fu, fs, fc, fpc, fca, fci, ford, fpay, fsh, frv, _, _, _, _, _, _, _, _, _, _, _⟩ := hframe1
  refine ⟨_, payment, shipment, st', (h1.trans h3).trans hfin, ?_, hamount, hpstat,
    hsstat, ?_, hpmemP, hsmemS, ?_, ?_, ?_⟩
  · show body.total_price.getD (orderTotal st (getCartItems st cart.id)) =
      orderTotal st (getCartItems st cart.id)
    rw [hbody]
    rfl
  · rw [hords, ford]
    show (createOrder st
        { order_id := body.order_id.getD oid,
          customer_id := body.customer_id.getD user.id,
          total_price := body.total_price.getD
            (orderTotal st (getCartItems st cart.id)),
          status := body.status } now).1 ∈
      listSet Order.id st.orderIdCounter
        (createOrder st
          { order_id := body.order_id.getD oid,
            customer_id := body.customer_id.getD user.id,
            total_price := body.total_price.getD
              (orderTotal st (getCartItems st cart.id)),
            status := body.status } now).1 st.orders
    exact mem_listSet_self Order.id st.orderIdCounter _ st.orders rfl
  · rw [hois, hmap1]
    rfl
  · intro it hit p hpp
    refine ⟨{ p with
        stock := p.stock - cartQty (getCartItems st cart.id) it.product_id,
        last_updated := some now }, ?_, rfl, rfl⟩
    have hg : getProduct st' it.product_id = getProduct e1.st it.product_id := by
      unfold getProduct
      rw [hprods]
    rw [hg]
    exact hdec1 it.product_id (List.mem_map.mpr ⟨it, hit, rfl⟩) p hpp
  · show st'.cartItems.filter (fun x => x.cart_id = cart.id) = []
    rw [List.filter_eq_nil_iff]
    intro x hx
    obtain ⟨hx1, hx2⟩ := hcartm x hx
    have hx1' : x ∈ st.cartItems := by
      rw [fci] at hx1
      exact hx1
    intro hpred
    apply hx2
    refine List.mem_map.mpr ⟨x, ?_, rfl⟩
    exact List.mem_filter.mpr ⟨hx1', hpred⟩

/-- Witness for C2 at the concrete one-product checkout: the handler
answers 201 with order, payment and shipment, and the cart ends empty. -/
theorem placeOrder_success_effects_witness :
    c2Run.1 = .created ⟨1, "ORD-1", 7, 20, 100, none⟩
      ⟨1, "PAY-1", 1, 20, 100, "credit_card", "completed"⟩
      ⟨1, "SHIP-1", 1, 100, some 604800100, none, none, "processing"⟩ ∧
    getCartItems c2Run.2 c3Cart.id = [] := by
  obtain ⟨o, p, s, st', heq, htot, hamt, hps, hss, hom, hpm, hsm, hmapc, hstk, hclear⟩ :=
    placeOrder_success_effects c3St c3User {} "ORD-1" "PAY-1" "SHIP-1" 100 c3Cart
      (by decide) (by decide)
      (by
        intro it hit
        have h : getCartItems c3St c3Cart.id = [c3Item] := rfl
        rw [h, List.mem_singleton] at hit
        subst hit
        exact ⟨c3Product, rfl, by decide⟩)
      (by decide) rfl
  constructor
  · decide
  · have h2 : c2Run.2 = st' := congrArg Prod.snd heq
    rw [h2]
    exact hclear

/-- C2 counterexample to the claim as stated: because `orderData` spreads
`req.body` after the computed fields, a request body carrying
total_price 999 produces an order stored with total_price 999 even though
the sum over the cart is 20 (the payment still carries the computed 20). -/
theorem placeOrder_total_override_counterexample :
    getCartItems c3St c3Cart.id = [c3Item] ∧
    getProduct c3St c3Item.product_id = some c3Product ∧
    c3Item.quantity ≤ c3Product.stock ∧
    orderTotal c3St (getCartItems c3St c3Cart.id) = 20 ∧
    c2CexRun.1 = .created ⟨1, "ORD-1", 7, 999, 100, none⟩
      ⟨1, "PAY-1", 1, 20, 100, "credit_card", "completed"⟩
      ⟨1, "SHIP-1", 1, 100, some 604800100, none, none, "processing"⟩ ∧
    c2CexRun.2.orders.map Order.total_price = [999] ∧
    ¬ ((999 : Int) = 20) := by
  decide

/-! ## C3: order placement is not atomic -/

/-- C3: in the run of POST /api/orders on the concrete store in which the
third storage mutation after createOrder (createPayment) throws, the error
is passed to next(error) while the created order, the added order item and
the applied stock decrement all remain in storage, no payment or shipment
exists, and the cart is left untouched — no compensating deletes happen. -/
theorem placeOrder_non_atomic :
    c3Run.1 = .errorPassed ∧
    c3Run.2.orders = [⟨1, "ORD-1", 7, 20, 100, none⟩] ∧
    c3Run.2.orderItems = [⟨1, 1, 1, 2, 10⟩] ∧
    c3Run.2.products.map Product.stock = [3] ∧
    c3Run.2.payments = [] ∧
    c3Run.2.shipments = [] ∧
    c3Run.2.cartItems = [c3Item] := by
  decide

end ECommerce
